import Mathlib

/-!
Shallow embedding of the Obliterator repository's two core source files:

* `obliterator_project/certificate_api/main.py` — the FastAPI certificate
  service (`generate_certificate`, `get_my_certificates`,
  `get_certificates_by_device`, and the `SimpleSupabaseClient` helpers).
* `obliterator/obliterator_login/login_system.py` — the desktop login
  system (`AuthManager.sign_in` and its two strategies, `SessionManager`,
  and the login-window result handler).

Remote HTTP calls are modelled by environments supplying each call's
outcome; wall-clock time is an integer number of seconds; the freshly
generated UUID is an environment field.  Python exceptions raised and
caught inside a handler are modelled with `Except`; FastAPI's
`HTTPException` is a value `HttpErr` carrying status and detail, and
`str(e)` of such an exception is `"{status}: {detail}"` (Starlette's
`HTTPException.__str__`).  Crucially, each endpoint's `try: ... except
Exception as e: raise HTTPException(500, ...)` catches `HTTPException`s
raised in the `try` body (they subclass `Exception`), so the embedding
re-wraps every in-body error as a 500 — exactly as the Python does.
-/

namespace Obliterator

/-- Strip `pre` from the front of `s`: `some rest` when `pre` is a prefix,
`none` otherwise. -/
def stripPre : List Char → List Char → Option (List Char)
  | [], s => some s
  | _ :: _, [] => Option.none
  | p :: ps, c :: cs => if c = p then stripPre ps cs else Option.none

/-- Python `s.startswith(pre)`. -/
def pyStartsWith (s pre : String) : Bool :=
  (stripPre pre.data s.data).isSome

/-- Fuel-indexed worker for `pyReplace`; the fuel only bounds recursion
depth (one unit per character consumed), so `s.length` fuel is always
enough when the pattern is non-empty. -/
def pyReplaceFuel (pat rep : List Char) : Nat → List Char → List Char
  | _, [] => []
  | 0, s => s
  | Nat.succ f, c :: cs =>
    match stripPre pat (c :: cs) with
    | some rest => rep ++ pyReplaceFuel pat rep f rest
    | Option.none => c :: pyReplaceFuel pat rep f cs

/-- Python `s.replace(pat, rep)`: replace every non-overlapping occurrence
of `pat`, scanning left to right.  (The source never calls `replace` with
an empty pattern, so that Python corner case is guarded away.) -/
def pyReplace (s pat rep : String) : String :=
  match pat.data with
  | [] => s
  | _ :: _ => ⟨pyReplaceFuel pat.data rep.data s.data.length s.data⟩

namespace CertApi

/-- Request body of `POST /generate-certificate` (`SanitizationDetails`). -/
structure SanitizationDetails where
  manufacturer : String
  model : String
  serial_number : String
  property_number : Option String
  media_type : String
  media_source : String
  pre_sanitization_confidentiality : Option String
  sanitization_method : String
  sanitization_technique : String
  tool_used : String
  verification_method : String
  post_sanitization_confidentiality : Option String
  post_sanitization_destination : Option String
  deriving Repr, DecidableEq

/-- The user JSON returned by `SimpleSupabaseClient.verify_user` on 200
(`user_info["id"]` is always read, `user_info.get("email", ...)` may be
absent). -/
structure UserInfo where
  id : String
  email : Option String
  deriving Repr, DecidableEq

/-- A FastAPI `HTTPException` value: status code and detail string. -/
structure HttpErr where
  status : Nat
  detail : String
  deriving Repr, DecidableEq

/-- `str(e)` for an `HTTPException` (Starlette renders
`"{status_code}: {detail}"`). -/
def HttpErr.str (e : HttpErr) : String :=
  toString e.status ++ ": " ++ e.detail

/-- Side effects of one `generate_certificate` request: filenames passed to
`upload_file` and certificate ids passed to `insert_record`. -/
structure Effects where
  uploads : List String
  inserts : List String
  deriving Repr, DecidableEq

/-- No side effects yet. -/
def Effects.none : Effects := ⟨[], []⟩

/-- Environment of one `generate_certificate` request: the outcome of each
remote call and the nondeterministic inputs (fresh UUID, timestamps). -/
structure ApiEnv where
  verifyUser : String → Option UserInfo
  uploadStatus : Nat
  uploadText : String
  insertStatus : Nat
  insertText : String
  freshUuid : String
  nowIso : String
  baseUrl : String

/-- Final HTTP outcome of an endpoint call. -/
inductive ApiResult where
  | ok (certificate_id pdf_url created_at user_id device_model message : String)
  | err (status : Nat) (detail : String)
  deriving Repr, DecidableEq

/-- `details.model.replace(" ", "_").replace("/", "_")`. -/
def safeModel (model : String) : String :=
  pyReplace (pyReplace model " " "_") "/" "_"

/-- The token extraction `authorization.replace("Bearer ", "")` (Python
`str.replace` replaces every occurrence). -/
def extractToken (authorization : String) : String :=
  pyReplace authorization "Bearer " ""

/-- Whether the header passes `authorization and authorization.startswith("Bearer ")`. -/
def bearerShaped : Option String → Bool
  | Option.none => false
  | some a => pyStartsWith a "Bearer "

/-- The `try:` body of `generate_certificate`: authorize, render, upload,
record.  Returns the raised `HttpErr` or the success payload, together with
the side effects performed before stopping. -/
def issueBody (env : ApiEnv) (details : SanitizationDetails)
    (authorization : Option String) : Except HttpErr ApiResult × Effects :=
  match authorization with
  | Option.none => (Except.error ⟨401, "Missing or invalid authorization header"⟩, Effects.none)
  | some a =>
    if !pyStartsWith a "Bearer " then
      (Except.error ⟨401, "Missing or invalid authorization header"⟩, Effects.none)
    else
      let token := extractToken a
      match env.verifyUser token with
      | Option.none => (Except.error ⟨401, "Invalid authentication token"⟩, Effects.none)
      | some user_info =>
        let user_id := user_info.id
        let user_email := user_info.email.getD "unknown@example.com"
        let certificate_id := env.freshUuid
        let filename :=
          "cert_" ++ user_id ++ "_" ++ safeModel details.model ++ "_" ++ certificate_id ++ ".pdf"
        -- upload_file is called before its status is checked
        let eff1 : Effects := ⟨[filename], []⟩
        if env.uploadStatus ≠ 200 ∧ env.uploadStatus ≠ 201 then
          (Except.error ⟨500, "Failed to upload PDF: " ++ env.uploadText⟩, eff1)
        else
          let pdf_url :=
            env.baseUrl ++ "/storage/v1/object/public/certificates/" ++ filename
          -- insert_record is called before its status is checked
          let eff2 : Effects := ⟨[filename], [certificate_id]⟩
          if env.insertStatus ≠ 200 ∧ env.insertStatus ≠ 201 then
            (Except.error
              ⟨500, "Failed to store certificate in database: " ++ env.insertText⟩, eff2)
          else
            (Except.ok (ApiResult.ok certificate_id pdf_url env.nowIso user_id details.model
              "Certificate generated and stored successfully"), eff2)

/-- The whole `generate_certificate` endpoint, including the
`except Exception as e: raise HTTPException(500, f"Error generating
certificate: {str(e)}")` wrapper, which also catches the `HTTPException`s
raised inside the `try` body. -/
def generateCertificate (env : ApiEnv) (details : SanitizationDetails)
    (authorization : Option String) : ApiResult × Effects :=
  match issueBody env details authorization with
  | (Except.ok r, eff) => (r, eff)
  | (Except.error e, eff) =>
    (ApiResult.err 500 ("Error generating certificate: " ++ e.str), eff)

/-- One row of the `certificates` table as returned by the REST select
(`data[0]['manufacturer']` is read on the by-device path; the remaining
columns are opaque here). -/
structure CertRow where
  manufacturer : String
  raw : String
  deriving Repr, DecidableEq

/-- `SimpleSupabaseClient.select_records` builds its query params from the
filters, then adds `limit` and `offset` only when truthy (`if limit:` /
`if offset:` — both `None` and `0` are falsy in Python). -/
def selectParams (filters : List (String × String))
    (limit offset : Option Int) : List (String × String) :=
  (filters.map fun p => (p.1, "eq." ++ p.2))
    ++ (match limit with
        | some n => if n = 0 then [] else [("limit", toString n)]
        | Option.none => [])
    ++ (match offset with
        | some n => if n = 0 then [] else [("offset", toString n)]
        | Option.none => [])

/-- The query `get_my_certificates` sends for a given user id, limit and
offset (filters `{"user_id": user_id}`, limit and offset passed through). -/
def myCertsQuery (user_id : String) (limit offset : Int) : List (String × String) :=
  selectParams [("user_id", user_id)] (some limit) (some offset)

/-- The query `get_certificates_by_device` sends (filters
`{"user_id": user_id, "model": model}`, no limit or offset). -/
def deviceCertsQuery (user_id model : String) : List (String × String) :=
  selectParams [("user_id", user_id), ("model", model)] Option.none Option.none

/-- A database (PostgREST) response: HTTP status, the parsed rows (read only
on 200), and the raw body text (used in error details). -/
structure DbResp where
  status : Nat
  rows : List CertRow
  text : String

/-- Environment for the two query endpoints: token verification plus the
database's response as a function of the query params. -/
structure QueryEnv where
  verifyUser : String → Option UserInfo
  db : List (String × String) → DbResp

/-- Outcome of `GET /my-certificates`. -/
inductive MyCertsResult where
  | ok (user_id : String) (certificates : List CertRow) (count : Nat)
  | err (status : Nat) (detail : String)
  deriving Repr, DecidableEq

/-- Outcome of `GET /certificates-by-device/{model}`. -/
inductive DeviceCertsResult where
  | ok (device_model manufacturer : String) (total_certificates : Nat)
      (certificates : List CertRow)
  | err (status : Nat) (detail : String)
  deriving Repr, DecidableEq

/-- The `try:` body of `get_my_certificates`; the second component records
the queries issued to the database. -/
def myCertsBody (env : QueryEnv) (authorization : Option String)
    (limit offset : Int) :
    Except HttpErr MyCertsResult × List (List (String × String)) :=
  if bearerShaped authorization = false then
    (Except.error ⟨401, "Missing or invalid authorization header"⟩, [])
  else
    match authorization with
    | Option.none => (Except.error ⟨401, "Missing or invalid authorization header"⟩, [])
    | some a =>
      match env.verifyUser (extractToken a) with
      | Option.none => (Except.error ⟨401, "Invalid authentication token"⟩, [])
      | some user_info =>
        let q := myCertsQuery user_info.id limit offset
        let r := env.db q
        if r.status ≠ 200 then
          (Except.error ⟨500, "Database error: " ++ r.text⟩, [q])
        else
          (Except.ok (MyCertsResult.ok user_info.id r.rows r.rows.length), [q])

/-- `GET /my-certificates` with its catch-all
`except Exception: raise HTTPException(500, f"Error retrieving certificates: ...")`. -/
def getMyCertificates (env : QueryEnv) (authorization : Option String)
    (limit offset : Int) : MyCertsResult × List (List (String × String)) :=
  match myCertsBody env authorization limit offset with
  | (Except.ok r, qs) => (r, qs)
  | (Except.error e, qs) =>
    (MyCertsResult.err 500 ("Error retrieving certificates: " ++ e.str), qs)

/-- The `try:` body of `get_certificates_by_device`; raises 404 when the
database returns zero rows. -/
def deviceCertsBody (env : QueryEnv) (model : String)
    (authorization : Option String) :
    Except HttpErr DeviceCertsResult × List (List (String × String)) :=
  if bearerShaped authorization = false then
    (Except.error ⟨401, "Missing or invalid authorization header"⟩, [])
  else
    match authorization with
    | Option.none => (Except.error ⟨401, "Missing or invalid authorization header"⟩, [])
    | some a =>
      match env.verifyUser (extractToken a) with
      | Option.none => (Except.error ⟨401, "Invalid authentication token"⟩, [])
      | some user_info =>
        let q := deviceCertsQuery user_info.id model
        let r := env.db q
        if r.status ≠ 200 then
          (Except.error ⟨500, "Database error: " ++ r.text⟩, [q])
        else
          match r.rows with
          | [] =>
            (Except.error ⟨404, "No certificates found for device model: " ++ model⟩, [q])
          | first :: rest =>
            (Except.ok (DeviceCertsResult.ok model first.manufacturer
              (first :: rest).length (first :: rest)), [q])

/-- `GET /certificates-by-device/{model}` with its catch-all
`except Exception: raise HTTPException(500, f"Error retrieving device certificates: ...")`. -/
def getCertificatesByDevice (env : QueryEnv) (model : String)
    (authorization : Option String) :
    DeviceCertsResult × List (List (String × String)) :=
  match deviceCertsBody env model authorization with
  | (Except.ok r, qs) => (r, qs)
  | (Except.error e, qs) =>
    (DeviceCertsResult.err 500 ("Error retrieving device certificates: " ++ e.str), qs)

end CertApi

namespace LoginSys

/-- Outcome of one `requests` call inside a strategy: either a response
(status plus parsed JSON body) or a raised exception (timeout, DNS failure,
JSON decode error, ...) whose `str(e)` is `detail`. -/
inductive HttpOutcome (α : Type) where
  | resp (status : Nat) (body : α)
  | exc (detail : String)
  deriving Repr, DecidableEq

/-- JSON body of the Supabase password-grant response, as the fields
`_try_supabase_auth` reads: `access_token`, `user` (opaque JSON, kept as a
string), `error_description`. -/
structure AuthOkBody where
  access_token : Option String
  user : Option String
  error_description : Option String
  deriving Repr, DecidableEq

/-- One row of the custom `Users` table, as the fields
`_try_user_table_auth` reads (`id` already stringified, since the code
applies `str(...)` to it and interpolates it into the token). -/
structure UserRow where
  id : String
  email : Option String
  password : Option String
  created_at : Option String
  deriving Repr, DecidableEq

/-- The user payload carried by a successful sign-in: either the opaque
`user` object of the Supabase auth response, or the `user_data` dict
synthesized by the table strategy. -/
inductive UserView where
  | remoteUser (raw : String)
  | tableUser (id : String) (email : Option String) (created_at : Option String)
  deriving Repr, DecidableEq

/-- `AuthManager`'s mutable fields `current_user` and `access_token`. -/
structure AuthState where
  current_user : Option UserView
  access_token : Option String
  deriving Repr, DecidableEq

/-- The fresh `AuthManager()` state. -/
def AuthState.init : AuthState := ⟨Option.none, Option.none⟩

/-- The dict a strategy helper returns: `{"success": True, "data": ...,
"method": ...}` or `{"success": False, "error": ...}`. -/
inductive StratResult where
  | success (method : String) (user : Option UserView)
  | failure (error : String)
  deriving Repr, DecidableEq

/-- `AuthManager._verify_password`: `if not stored_password: return False`
(so a missing **or empty** stored password always fails), then plain
string equality. -/
def verifyPassword (provided : String) (stored : Option String) : Bool :=
  match stored with
  | Option.none => false
  | some s => if s = "" then false else provided == s

/-- `AuthManager._try_supabase_auth`: on a 200 response capture
`access_token` and `user` into the manager state and succeed; on any other
status fail with `error_description` (default `"Auth failed"`); any
exception is caught inside and becomes a failure with `str(e)`. -/
def trySupabaseAuth (o : HttpOutcome AuthOkBody) (st : AuthState) :
    StratResult × AuthState :=
  match o with
  | HttpOutcome.resp status body =>
    if status = 200 then
      (StratResult.success "supabase_auth" (body.user.map UserView.remoteUser),
       { current_user := body.user.map UserView.remoteUser,
         access_token := body.access_token })
    else
      (StratResult.failure (body.error_description.getD "Auth failed"), st)
  | HttpOutcome.exc d => (StratResult.failure d, st)

/-- `AuthManager._try_user_table_auth`: on a 200 response, no rows →
`"User not found"`; otherwise take `users[0]`, compare passwords; on a
match synthesize `user_data`, set `current_user` and
`access_token = f"table_auth_{user_id}"`; on mismatch `"Invalid
password"`.  Non-200 → `"Database query failed: {status}"`; any exception
is caught inside and becomes a failure with `str(e)`. -/
def tryUserTableAuth (o : HttpOutcome (List UserRow)) (password : String)
    (st : AuthState) : StratResult × AuthState :=
  match o with
  | HttpOutcome.resp status users =>
    if status = 200 then
      match users with
      | [] => (StratResult.failure "User not found", st)
      | user :: _ =>
        if verifyPassword password user.password then
          let u := UserView.tableUser user.id user.email user.created_at
          (StratResult.success "user_table" (some u),
           { current_user := some u,
             access_token := some ("table_auth_" ++ user.id) })
        else
          (StratResult.failure "Invalid password", st)
    else
      (StratResult.failure ("Database query failed: " ++ toString status), st)
  | HttpOutcome.exc d => (StratResult.failure d, st)

/-- Environment of one `sign_in` call: the internet-reachability probe's
answer and the outcome of each strategy's HTTP call. -/
structure SignInEnv where
  internet : Bool
  supabase : HttpOutcome AuthOkBody
  table : HttpOutcome (List UserRow)

/-- The value `sign_in` returns, the manager state after it, and whether
the table-lookup strategy was attempted at all. -/
structure SignInOut where
  result : StratResult
  state : AuthState
  tableAttempted : Bool
  deriving Repr, DecidableEq

/-- `AuthManager.sign_in`: check internet first; try Supabase auth; if not
successful, try the user-table lookup; if both fail return
`"Invalid email or password"`.  (The helpers catch their own exceptions,
so the outer `except` that would yield `"Connection error: ..."` is not
reachable from the strategies' HTTP failures.) -/
def signIn (env : SignInEnv) (password : String) (st : AuthState) : SignInOut :=
  if !env.internet then
    ⟨StratResult.failure "No internet connection available", st, false⟩
  else
    match trySupabaseAuth env.supabase st with
    | (StratResult.success m u, st1) => ⟨StratResult.success m u, st1, false⟩
    | (StratResult.failure _, st1) =>
      match tryUserTableAuth env.table password st1 with
      | (StratResult.success m u, st2) => ⟨StratResult.success m u, st2, true⟩
      | (StratResult.failure _, st2) =>
        ⟨StratResult.failure "Invalid email or password", st2, true⟩

/-- `True` exactly when `_try_supabase_auth` reports success (HTTP 200). -/
def strat1Succeeds : HttpOutcome AuthOkBody → Bool
  | HttpOutcome.resp status _ => status == 200
  | HttpOutcome.exc _ => false

/-- `True` exactly when `_try_user_table_auth` reports success: HTTP 200,
at least one row, and the first row's password verifies. -/
def strat2Succeeds (password : String) : HttpOutcome (List UserRow) → Bool
  | HttpOutcome.resp status users =>
    status == 200 &&
      (match users with
       | [] => false
       | u :: _ => verifyPassword password u.password)
  | HttpOutcome.exc _ => false

/-- The error message of a failure result, if any. -/
def StratResult.errorMsg : StratResult → Option String
  | StratResult.failure e => some e
  | StratResult.success _ _ => Option.none

/-- The decoded content of the local `.session_data` file, as
`SessionManager.save_session` writes it: `{"user": ..., "timestamp": now,
"remember_me": ..., "expires": now + 24h}`.  Times are integer seconds. -/
structure SessionInfo where
  user : Option UserView
  timestamp : Int
  remember_me : Bool
  expires : Int
  deriving Repr, DecidableEq

/-- 24 hours, in seconds (`timedelta(hours=24)`). -/
def dayS : Int := 86400

/-- `SessionManager.save_session`: write a fresh record with
`expires = now + 24h`, replacing any prior file content — the write
happens for **every** value of `remember_me`. -/
def saveSession (now : Int) (user : Option UserView) (remember_me : Bool)
    («file» : Option SessionInfo) : Option SessionInfo :=
  some { user := user, timestamp := now, remember_me := remember_me,
         expires := now + dayS }

/-- `SessionManager.clear_session`: delete the file. -/
def clearSession («file» : Option SessionInfo) : Option SessionInfo :=
  Option.none

/-- `SessionManager.load_session`: absent file → `None`; present file with
`now > expires` → clear and `None`; otherwise return the record.  Result is
`(returned session, file afterwards)`. -/
def loadSession (now : Int) («file» : Option SessionInfo) :
    Option SessionInfo × Option SessionInfo :=
  match «file» with
  | Option.none => (Option.none, Option.none)
  | some s => if now > s.expires then (Option.none, Option.none) else (some s, some s)

/-- `SessionManager.is_valid_session` on a loaded record:
`now < expires`. -/
def isValidSession (now : Int) (s : SessionInfo) : Bool :=
  now < s.expires

/-- `FullscreenLoginWindow._handle_login_result` restricted to its
session-file effect: on success it calls
`save_session(user_data, remember_var)` **unconditionally**; on failure it
only shows a status message. -/
def handleLoginResult (result : StratResult) (remember : Bool) (now : Int)
    («file» : Option SessionInfo) : Option SessionInfo :=
  match result with
  | StratResult.success _ u => saveSession now u remember «file»
  | StratResult.failure _ => «file»

/-- `FullscreenLoginWindow.check_existing_session`: load the session; if one
is returned, is still valid, and has `remember_me` set, auto-resume.
Result is `(resumed?, file afterwards)`. -/
def checkExistingSession (now : Int) («file» : Option SessionInfo) :
    Bool × Option SessionInfo :=
  match loadSession now «file» with
  | (some s, f) => (isValidSession now s && s.remember_me, f)
  | (Option.none, f) => (false, f)

end LoginSys

open CertApi LoginSys

/-! ## Shared concrete inputs and helper lemmas -/

/-- A complete sample `SanitizationDetails` body. -/
def sampleDetails : SanitizationDetails :=
  { manufacturer := "Seagate", model := "Barracuda 2TB", serial_number := "SN123",
    property_number := Option.none, media_type := "magnetic", media_source := "computer",
    pre_sanitization_confidentiality := Option.none, sanitization_method := "purge",
    sanitization_technique := "overwrite", tool_used := "Obliterator v1.0",
    verification_method := "full read", post_sanitization_confidentiality := Option.none,
    post_sanitization_destination := Option.none }

/-- An issuance environment whose token verification rejects every token
and whose storage and database calls would succeed. -/
def rejectTokenEnv : ApiEnv :=
  { verifyUser := fun _ => Option.none, uploadStatus := 200, uploadText := "",
    insertStatus := 201, insertText := "", freshUuid := "cid-1",
    nowIso := "2026-01-02T03:04:05", baseUrl := "https://sb.example.com" }

/-- A query environment that accepts every token as user `u1` and whose
database answers 200 with zero rows. -/
def emptyDbEnv : QueryEnv :=
  { verifyUser := fun _ => some ⟨"u1", some "user@example.com"⟩,
    db := fun _ => ⟨200, [], "[]"⟩ }

/-- If the Supabase auth response is not a 200, `_try_supabase_auth`
returns a failure and leaves the manager state unchanged. -/
theorem trySupabaseAuth_not200 (o : HttpOutcome AuthOkBody) (st : AuthState)
    (h : strat1Succeeds o = false) :
    ∃ e, trySupabaseAuth o st = (StratResult.failure e, st) := by
  cases o with
  | resp s b =>
    rw [strat1Succeeds, beq_eq_false_iff_ne] at h
    exact ⟨b.error_description.getD "Auth failed", by simp [trySupabaseAuth, h]⟩
  | exc d => exact ⟨d, rfl⟩

/-- If the table strategy does not succeed, `_try_user_table_auth` returns
a failure and leaves the manager state unchanged. -/
theorem tryUserTableAuth_fail (o : HttpOutcome (List UserRow)) (pw : String)
    (st : AuthState) (h : strat2Succeeds pw o = false) :
    ∃ e, tryUserTableAuth o pw st = (StratResult.failure e, st) := by
  cases o with
  | resp s users =>
    by_cases hs : s = 200
    · subst hs
      cases users with
      | nil => exact ⟨"User not found", by simp [tryUserTableAuth]⟩
      | cons u rest =>
        have hv : verifyPassword pw u.password = false := by
          simpa [strat2Succeeds] using h
        exact ⟨"Invalid password", by simp [tryUserTableAuth, hv]⟩
    · exact ⟨"Database query failed: " ++ toString s, by simp [tryUserTableAuth, hs]⟩
  | exc d => exact ⟨d, rfl⟩

/-- When the internet probe passes and both strategies fail, `sign_in`
returns the generic message and has attempted the table strategy. -/
theorem signIn_both_fail (env : SignInEnv) (pw : String) (st : AuthState)
    (hi : env.internet = true) (h1 : strat1Succeeds env.supabase = false)
    (h2 : strat2Succeeds pw env.table = false) :
    (signIn env pw st).result = StratResult.failure "Invalid email or password" ∧
    (signIn env pw st).tableAttempted = true := by
  obtain ⟨e1, he1⟩ := trySupabaseAuth_not200 env.supabase st h1
  obtain ⟨e2, he2⟩ := tryUserTableAuth_fail env.table pw st h2
  constructor <;> simp [signIn, hi, he1, he2]

/-! ## Claim theorems -/

/-- Claim C7 (confirmed): for all credentials for which Strategy
REMOTE_AUTH succeeds (the password-grant call answers 200), `sign_in`
returns that strategy's identity and access token, and never attempts
Strategy TABLE_LOOKUP. -/
theorem c7_remote_auth_short_circuits (env : SignInEnv) (pw : String)
    (st : AuthState) (body : AuthOkBody) (hi : env.internet = true)
    (hs : env.supabase = HttpOutcome.resp 200 body) :
    signIn env pw st =
      ⟨StratResult.success "supabase_auth" (body.user.map UserView.remoteUser),
       { current_user := body.user.map UserView.remoteUser,
         access_token := body.access_token }, false⟩ := by
  simp [signIn, hi, hs, trySupabaseAuth]

/-- Witness for C7 at a concrete environment. -/
theorem c7_witness :
    signIn { internet := true,
             supabase := HttpOutcome.resp 200
               ⟨some "jwt-abc", some "{id: u1}", Option.none⟩,
             table := HttpOutcome.exc "never reached" }
        "pw" AuthState.init =
      ⟨StratResult.success "supabase_auth" (some (UserView.remoteUser "{id: u1}")),
       { current_user := some (UserView.remoteUser "{id: u1}"),
         access_token := some "jwt-abc" }, false⟩ :=
  c7_remote_auth_short_circuits _ "pw" AuthState.init
    ⟨some "jwt-abc", some "{id: u1}", Option.none⟩ rfl rfl

/-- Claim C5 counterexample: the claim quantifies over every stored secret
equal to the provided secret under plain equality, but
`_verify_password` first rejects any falsy stored password, so with
provided secret `""` and stored secret `""` (equal under plain equality,
exactly one matching row, REMOTE_AUTH failing) `sign_in` fails instead of
succeeding via TABLE_LOOKUP. -/
theorem c5_counterexample :
    (signIn { internet := true,
              supabase := HttpOutcome.resp 400 ⟨Option.none, Option.none, some "invalid_grant"⟩,
              table := HttpOutcome.resp 200 [⟨"7", some "a@b.com", some "", Option.none⟩] }
        "" AuthState.init).result = StratResult.failure "Invalid email or password" := by
  decide

/-- Claim C5 (corrected): if Strategy REMOTE_AUTH fails, exactly one
user-table row matches the email, and its stored secret is **non-empty**
and equal to the provided secret under plain equality, then `sign_in`
succeeds via TABLE_LOOKUP and the manager holds the access token
`table_auth_<id>`. -/
theorem c5_table_lookup_success (env : SignInEnv) (st : AuthState)
    (row : UserRow) (pw : String) (hi : env.internet = true)
    (h1 : strat1Succeeds env.supabase = false)
    (ht : env.table = HttpOutcome.resp 200 [row])
    (hpw : row.password = some pw) (hne : pw ≠ "") :
    (signIn env pw st).result =
      StratResult.success "user_table"
        (some (UserView.tableUser row.id row.email row.created_at)) ∧
    (signIn env pw st).state.access_token = some ("table_auth_" ++ row.id) ∧
    (signIn env pw st).tableAttempted = true := by
  obtain ⟨e1, he1⟩ := trySupabaseAuth_not200 env.supabase st h1
  have hv : verifyPassword pw row.password = true := by
    simp [verifyPassword, hpw, hne]
  refine ⟨?_, ?_, ?_⟩ <;> simp [signIn, hi, he1, ht, tryUserTableAuth, hv]

/-- Witness for C5 (corrected) at a concrete environment. -/
theorem c5_witness :
    (signIn { internet := true,
              supabase := HttpOutcome.resp 400 ⟨Option.none, Option.none, some "invalid_grant"⟩,
              table := HttpOutcome.resp 200 [⟨"7", some "a@b.com", some "x", Option.none⟩] }
        "x" AuthState.init).result =
      StratResult.success "user_table"
        (some (UserView.tableUser "7" (some "a@b.com") Option.none)) ∧
    (signIn { internet := true,
              supabase := HttpOutcome.resp 400 ⟨Option.none, Option.none, some "invalid_grant"⟩,
              table := HttpOutcome.resp 200 [⟨"7", some "a@b.com", some "x", Option.none⟩] }
        "x" AuthState.init).state.access_token = some "table_auth_7" := by
  have h := c5_table_lookup_success
    { internet := true,
      supabase := HttpOutcome.resp 400 ⟨Option.none, Option.none, some "invalid_grant"⟩,
      table := HttpOutcome.resp 200 [⟨"7", some "a@b.com", some "x", Option.none⟩] }
    AuthState.init ⟨"7", some "a@b.com", some "x", Option.none⟩ "x"
    rfl (by decide) rfl rfl (by decide)
  exact ⟨h.1, h.2.1⟩

/-- Claim C4 counterexample: with an HTTP-layer exception (a timeout) at
Strategy REMOTE_AUTH, `sign_in` does **not** surface a connection error
and does **not** stop: it falls through to Strategy TABLE_LOOKUP, which
here even succeeds. -/
theorem c4_counterexample :
    signIn { internet := true,
             supabase := HttpOutcome.exc "HTTPSConnectionPool: Read timed out.",
             table := HttpOutcome.resp 200 [⟨"3", some "a@b.com", some "x", Option.none⟩] }
        "x" AuthState.init =
      ⟨StratResult.success "user_table"
         (some (UserView.tableUser "3" (some "a@b.com") Option.none)),
       { current_user := some (UserView.tableUser "3" (some "a@b.com") Option.none),
         access_token := some "table_auth_3" }, true⟩ := by
  decide

/-- Claim C4 (corrected): an HTTP-layer exception at Strategy REMOTE_AUTH
is caught inside `_try_supabase_auth`, which classifies it as an ordinary
failure carrying `str(e)`, and `sign_in` then falls through and attempts
Strategy TABLE_LOOKUP; the `"Connection error: ..."` wrapper in `sign_in`
is not reached by such in-strategy exceptions. -/
theorem c4_exception_caught_and_falls_through (env : SignInEnv) (pw : String)
    (st : AuthState) (d : String) (hi : env.internet = true)
    (hs : env.supabase = HttpOutcome.exc d) :
    trySupabaseAuth env.supabase st = (StratResult.failure d, st) ∧
    (signIn env pw st).tableAttempted = true := by
  refine ⟨by simp [hs, trySupabaseAuth], ?_⟩
  rcases h2 : tryUserTableAuth env.table pw st with ⟨r2, st2⟩
  cases r2 <;> simp [signIn, hi, hs, trySupabaseAuth, h2]

/-- Witness for C4 (corrected) at a concrete environment. -/
theorem c4_witness :
    trySupabaseAuth (HttpOutcome.exc "Read timed out.") AuthState.init =
      (StratResult.failure "Read timed out.", AuthState.init) ∧
    (signIn { internet := true,
              supabase := HttpOutcome.exc "Read timed out.",
              table := HttpOutcome.resp 200 [] }
        "pw" AuthState.init).tableAttempted = true :=
  c4_exception_caught_and_falls_through
    { internet := true,
      supabase := HttpOutcome.exc "Read timed out.",
      table := HttpOutcome.resp 200 [] }
    "pw" AuthState.init "Read timed out." rfl rfl

/-- Claim C8 (confirmed): whenever the internet probe passes and both
strategies fail — for any reason whatsoever — the error returned to the
caller is the single generic message, so two such runs are
indistinguishable by their error. -/
theorem c8_uniform_error_message (e1 e2 : SignInEnv) (pw1 pw2 : String)
    (st1 st2 : AuthState)
    (hi1 : e1.internet = true) (hi2 : e2.internet = true)
    (h11 : strat1Succeeds e1.supabase = false)
    (h12 : strat2Succeeds pw1 e1.table = false)
    (h21 : strat1Succeeds e2.supabase = false)
    (h22 : strat2Succeeds pw2 e2.table = false) :
    (signIn e1 pw1 st1).result = (signIn e2 pw2 st2).result ∧
    (signIn e1 pw1 st1).result = StratResult.failure "Invalid email or password" := by
  have a1 := signIn_both_fail e1 pw1 st1 hi1 h11 h12
  have a2 := signIn_both_fail e2 pw2 st2 hi2 h21 h22
  exact ⟨a1.1.trans a2.1.symm, a1.1⟩

/-- Witness for C8: one run fails by a timeout at strategy 1 and an empty
table, the other by a 400 at strategy 1 and a password mismatch; the
returned errors coincide. -/
theorem c8_witness :
    (signIn { internet := true,
              supabase := HttpOutcome.exc "HTTPSConnectionPool: Read timed out.",
              table := HttpOutcome.resp 200 [] }
        "x" AuthState.init).result =
    (signIn { internet := true,
              supabase := HttpOutcome.resp 400 ⟨Option.none, Option.none, some "invalid_grant"⟩,
              table := HttpOutcome.resp 200 [⟨"9", some "bob@example.com", some "secret", Option.none⟩] }
        "wrong" AuthState.init).result :=
  (c8_uniform_error_message
    { internet := true,
      supabase := HttpOutcome.exc "HTTPSConnectionPool: Read timed out.",
      table := HttpOutcome.resp 200 [] }
    { internet := true,
      supabase := HttpOutcome.resp 400 ⟨Option.none, Option.none, some "invalid_grant"⟩,
      table := HttpOutcome.resp 200 [⟨"9", some "bob@example.com", some "secret", Option.none⟩] }
    "x" "wrong" AuthState.init AuthState.init
    rfl rfl (by decide) (by decide) (by decide) (by decide)).1

/-- Claim C3 counterexample: a successful sign-in with `remember = false`
**does** write a session record to the session file — starting from an
absent file, `_handle_login_result` leaves `some` record behind, so the
prior content is not preserved. -/
theorem c3_counterexample :
    handleLoginResult (StratResult.success "supabase_auth" Option.none) false 0
        Option.none =
      some ⟨Option.none, 0, false, dayS⟩ ∧
    handleLoginResult (StratResult.success "supabase_auth" Option.none) false 0
        Option.none ≠ Option.none := by
  constructor <;> decide

/-- Claim C3 (corrected): on every successful sign-in the session is
written to the session file regardless of `remember`; with
`remember = false` the stored record carries `remember_me = false`, and
`check_existing_session` never auto-resumes from such a record. -/
theorem c3_session_saved_regardless_of_remember (m : String)
    (u : Option UserView) (now t : Int) (f0 : Option SessionInfo) :
    handleLoginResult (StratResult.success m u) false now f0 =
      some ⟨u, now, false, now + dayS⟩ ∧
    (checkExistingSession t (some ⟨u, now, false, now + dayS⟩)).1 = false := by
  refine ⟨rfl, ?_⟩
  by_cases h : t > now + dayS <;>
    simp [checkExistingSession, loadSession, isValidSession, h]

/-- Claim C6 counterexample: a session saved (with `remember = true`) at
time `T = 0` is still returned by `load_session` at exactly
`T' = T + 24h`, and the file is not deleted — the expiry comparison is
strict (`now > expires`), contradicting "absent for every
`T' ≥ T + 24h`". -/
theorem c6_counterexample :
    loadSession dayS (saveSession 0 Option.none true Option.none) =
      (some ⟨Option.none, 0, true, dayS⟩, some ⟨Option.none, 0, true, dayS⟩) := by
  decide

/-- Claim C6 (corrected): a session saved with `remember = true` at time
`T` is returned by `load_session` at every `T' ≤ T + 24h` (and satisfies
`is_valid_session` for `T' < T + 24h`), while at every `T' > T + 24h`
`load_session` returns `None` and deletes the session file. -/
theorem c6_session_expiry_boundary (T Tq : Int) (u : Option UserView)
    (f0 : Option SessionInfo) :
    (Tq ≤ T + dayS →
      loadSession Tq (saveSession T u true f0) =
        (some ⟨u, T, true, T + dayS⟩, some ⟨u, T, true, T + dayS⟩)) ∧
    (Tq > T + dayS →
      loadSession Tq (saveSession T u true f0) = (Option.none, Option.none)) ∧
    (Tq < T + dayS → isValidSession Tq ⟨u, T, true, T + dayS⟩ = true) := by
  refine ⟨fun h => ?_, fun h => ?_, fun h => ?_⟩
  · simp [loadSession, saveSession, not_lt.mpr h]
  · simp [loadSession, saveSession, h]
  · simp [isValidSession, h]

/-- Witness for C6 (corrected): at `T = 0`, the session is loadable at
`T' = 100` and gone (file deleted) at `T' = 24h + 1`. -/
theorem c6_witness :
    loadSession 100 (saveSession 0 Option.none true Option.none) =
      (some ⟨Option.none, 0, true, 0 + dayS⟩, some ⟨Option.none, 0, true, 0 + dayS⟩) ∧
    loadSession (dayS + 1) (saveSession 0 Option.none true Option.none) =
      (Option.none, Option.none) :=
  ⟨(c6_session_expiry_boundary 0 100 Option.none Option.none).1 (by decide),
   (c6_session_expiry_boundary 0 (dayS + 1) Option.none Option.none).2.1 (by decide)⟩

/-- Claim C1 (code bug): the endpoint raises `HTTPException(401)` for a
missing header, a non-Bearer header, and a token that fails verification,
but the handler's blanket `except Exception` catches those very
exceptions and re-raises them as `HTTPException(500, "Error generating
certificate: {str(e)}")` — so every one of the three cases actually
answers HTTP 500, not 401.  This theorem evaluates the handler at the
three failing inputs, and checks that no 401 response can result. -/
theorem c1_auth_failures_answer_500_not_401 :
    (generateCertificate rejectTokenEnv sampleDetails Option.none).1 =
      ApiResult.err 500
        "Error generating certificate: 401: Missing or invalid authorization header" ∧
    (generateCertificate rejectTokenEnv sampleDetails (some "Token abc")).1 =
      ApiResult.err 500
        "Error generating certificate: 401: Missing or invalid authorization header" ∧
    (generateCertificate rejectTokenEnv sampleDetails (some "Bearer abc")).1 =
      ApiResult.err 500
        "Error generating certificate: 401: Invalid authentication token" ∧
    (∀ s, (generateCertificate rejectTokenEnv sampleDetails Option.none).1 ≠
      ApiResult.err 401 s) := by
  refine ⟨by decide, by decide, by decide, ?_⟩
  intro s h
  have h0 : (generateCertificate rejectTokenEnv sampleDetails Option.none).1 =
      ApiResult.err 500
        "Error generating certificate: 401: Missing or invalid authorization header" := by
    decide
  rw [h0] at h
  injection h with h1 _
  exact absurd h1 (by decide)

/-- Claim C2 (confirmed): when the bearer token fails verification, the
issuance pipeline stops at the authorize stage with the 401
"Invalid authentication token" error, and performs no storage upload and
no database insert — the full endpoint likewise performs no side
effects. -/
theorem c2_invalid_token_no_side_effects (env : ApiEnv)
    (details : SanitizationDetails) (a : String)
    (hb : pyStartsWith a "Bearer " = true)
    (hv : env.verifyUser (extractToken a) = Option.none) :
    issueBody env details (some a) =
      (Except.error ⟨401, "Invalid authentication token"⟩, Effects.none) ∧
    (generateCertificate env details (some a)).2 = Effects.none := by
  have h1 : issueBody env details (some a) =
      (Except.error ⟨401, "Invalid authentication token"⟩, Effects.none) := by
    simp [issueBody, hb, hv]
  exact ⟨h1, by simp [generateCertificate, h1]⟩

/-- Witness for C2 at a concrete environment and request. -/
theorem c2_witness :
    issueBody rejectTokenEnv sampleDetails (some "Bearer expired-token") =
      (Except.error ⟨401, "Invalid authentication token"⟩, Effects.none) ∧
    (generateCertificate rejectTokenEnv sampleDetails (some "Bearer expired-token")).2 =
      Effects.none :=
  c2_invalid_token_no_side_effects rejectTokenEnv sampleDetails
    "Bearer expired-token" (by decide) rfl

/-- Claim C9 (code bug): with zero matching rows,
`GET /my-certificates` indeed answers 200 with an empty list and count 0,
but `GET /certificates-by-device/{model}` does **not** answer 404: the
404 it raises is caught by its own `except Exception` and re-raised as a
500 wrapping the 404 message. -/
theorem c9_zero_rows_device_500_my_certs_empty :
    (getCertificatesByDevice emptyDbEnv "ToshibaX300" (some "Bearer tok")).1 =
      DeviceCertsResult.err 500
        "Error retrieving device certificates: 404: No certificates found for device model: ToshibaX300" ∧
    (getMyCertificates emptyDbEnv (some "Bearer tok") 10 0).1 =
      MyCertsResult.ok "u1" [] 0 ∧
    (∀ s, (getCertificatesByDevice emptyDbEnv "ToshibaX300" (some "Bearer tok")).1 ≠
      DeviceCertsResult.err 404 s) := by
  refine ⟨by decide, by decide, ?_⟩
  intro s h
  have h0 : (getCertificatesByDevice emptyDbEnv "ToshibaX300" (some "Bearer tok")).1 =
      DeviceCertsResult.err 500
        "Error retrieving device certificates: 404: No certificates found for device model: ToshibaX300" := by
    decide
  rw [h0] at h
  injection h with h1 _
  exact absurd h1 (by decide)

/-- The query list recorded by `get_my_certificates` is always the single
query it builds through `select_records`, whatever the database
answers. -/
theorem getMyCertificates_queries (env : QueryEnv) (a : String) (u : UserInfo)
    (hb : pyStartsWith a "Bearer " = true)
    (hv : env.verifyUser (extractToken a) = some u) (limit offset : Int) :
    (getMyCertificates env (some a) limit offset).2 =
      [myCertsQuery u.id limit offset] := by
  have hbody : (myCertsBody env (some a) limit offset).2 =
      [myCertsQuery u.id limit offset] := by
    simp only [myCertsBody, bearerShaped, hb, hv]
    by_cases hr : (env.db (myCertsQuery u.id limit offset)).status ≠ 200 <;> simp [hr]
  rcases hB : myCertsBody env (some a) limit offset with ⟨r, qs⟩
  rw [hB] at hbody
  cases r <;> simpa [getMyCertificates, hB] using hbody

/-- Claim C10 (confirmed): `select_records` adds the `limit` and `offset`
query parameters only when truthy, so a call of `GET /my-certificates`
with `limit = 0` issues a query identical to one with no limit at all
(and symmetrically for `offset = 0`): the zero value never reaches the
database, hence cannot restrict the result to zero rows. -/
theorem c10_falsy_limit_offset_omitted (uid : String) (lim off : Int) :
    myCertsQuery uid 0 off = selectParams [("user_id", uid)] Option.none (some off) ∧
    myCertsQuery uid lim 0 = selectParams [("user_id", uid)] (some lim) Option.none ∧
    "limit" ∉ (myCertsQuery uid 0 off).map Prod.fst ∧
    "offset" ∉ (myCertsQuery uid lim 0).map Prod.fst ∧
    (∀ (env : QueryEnv) (a : String) (u : UserInfo),
      pyStartsWith a "Bearer " = true →
      env.verifyUser (extractToken a) = some u →
      (getMyCertificates env (some a) 0 off).2 =
        [selectParams [("user_id", u.id)] Option.none (some off)]) := by
  have hlim : ∀ (v : String) (o : Int),
      selectParams [("user_id", v)] (some 0) (some o) =
        selectParams [("user_id", v)] Option.none (some o) := by
    intro v o; simp [selectParams]
  refine ⟨hlim uid off, ?_, ?_, ?_, ?_⟩
  · simp [myCertsQuery, selectParams]
  · rw [myCertsQuery, hlim uid off]
    rcases eq_or_ne off 0 with h | h <;> simp [selectParams, h]
  · rcases eq_or_ne lim 0 with h | h <;> simp [myCertsQuery, selectParams, h]
  · intro env a u hb hv
    rw [getMyCertificates_queries env a u hb hv 0 off, myCertsQuery, hlim u.id off]

/-- Witness for C10 at a concrete user, offset and environment. -/
theorem c10_witness :
    myCertsQuery "u1" 0 9 = selectParams [("user_id", "u1")] Option.none (some 9) ∧
    (getMyCertificates emptyDbEnv (some "Bearer tok") 0 9).2 =
      [selectParams [("user_id", "u1")] Option.none (some 9)] := by
  have h := c10_falsy_limit_offset_omitted "u1" 5 9
  exact ⟨h.1,
    h.2.2.2.2 emptyDbEnv "Bearer tok" ⟨"u1", some "user@example.com"⟩ (by decide) rfl⟩

end Obliterator
